import Mathlib

/-!
Shallow embedding of the NebulaFX server lifecycle orchestrator
(`src/nebulafx/src/main.rs`, `src/nebulafx/src/config/mod.rs`,
`src/nebulafx/src/admin/console.rs`, `src/crates/postgresqlx/src/pool.rs`).

External collaborator calls (database pool creation, storage engine,
notification lookups, ...) are modelled as explicit result parameters
("oracles"); the async control flow of each function becomes a pure Lean
function over those results, returning either its Rust return value or a
trace of the observable actions it performs, in source order.
-/

namespace NebulaFX

/-! ## Configuration model (`src/nebulafx/src/config/interface.rs`)

Only the fields consulted by the embedded functions are carried; every
section is optional exactly as in the Rust `Config` struct. Sections whose
contents the embedded code never inspects are carried as `Option Unit`. -/

/-- Abstract stand-in for `PostgreSQLConfig` (its fields are only read by
`create_pool`, which is an external collaborator here). -/
structure PostgreSQLConfigM where
  id : Nat
deriving DecidableEq, Repr

/-- The parsed TOML configuration (`Config` in `config/interface.rs`),
restricted to the fields the orchestrator branches on. -/
structure Config where
  server : Option Unit
  database : Option PostgreSQLConfigM
  storage : Option Unit
  tls : Option Unit
  observability : Option Unit
deriving DecidableEq, Repr

/-! ## `config/mod.rs`: environment-driven file selection and the CONFIG slot -/

/-- `PRO_ENV` from `config/mod.rs`: the exact strings treated as production. -/
def PRO_ENV : List String := ["pro", "production", "p", "P", "PRO", "PRODUCTION"]

/-- The boolean passed to `load_config`:
`env::var(ENVIRONMENT).map(|v| PRO_ENV.contains(&v.as_str())).unwrap_or(false)`.
`envVal = none` models an unset `ENVIRONMENT` variable. -/
def production_selected (envVal : Option String) : Bool :=
  (envVal.map (fun v => PRO_ENV.contains v)).getD false

/-- The path chosen by `load_config(if_production)`:
`"config.toml"` if production, otherwise `"config.dev.toml"`. -/
def config_file_path (envVal : Option String) : String :=
  if production_selected envVal then "config.toml" else "config.dev.toml"

/-- `TomlConfigError` from `src/crates/tomlx/src/error.rs`. -/
inductive TomlConfigError
  | Io (msg : String)
  | Parse (msg : String)
  | Serialize (msg : String)
  | NotFound (path : String)
  | InvalidPath (path : String)
  | AlreadyInitialized
deriving DecidableEq, Repr

/-- `pub struct Success;` from `config/mod.rs`. -/
inductive Success
  | mk
deriving DecidableEq, Repr

/-- `init_config` from `config/mod.rs`, as a state transformer on the
`CONFIG : OnceLock<Config>` slot (`none` = empty). `loadRes` is the result
of the `load_config` call. Returns the Rust return value together with the
slot's new contents: on `CONFIG.set` failure (slot already set) the result
is `TomlConfigError::AlreadyInitialized` and the slot is left untouched. -/
def init_config (loadRes : Except TomlConfigError Config) (slot : Option Config) :
    Except TomlConfigError Success × Option Config :=
  match loadRes with
  | .error e => (.error e, slot)
  | .ok c =>
    match slot with
    | some c0 => (.error .AlreadyInitialized, some c0)
    | none => (.ok .mk, some c)

/-- Result of `get_config()` (`config/mod.rs`). The Rust signature is
`pub fn get_config() -> &'static Config`: it cannot return an error value;
on an empty slot `.expect(...)` panics, which the embedding records as the
distinguished `panicked` outcome. -/
inductive ConfigGetResult
  | value (c : Config)
  | panicked (msg : String)
deriving DecidableEq, Repr

/-- `get_config` from `config/mod.rs`:
`CONFIG.get().expect("Config not initialized. Call init_config() first.")`. -/
def get_config (slot : Option Config) : ConfigGetResult :=
  match slot with
  | some c => .value c
  | none => .panicked "Config not initialized. Call init_config() first."

/-- True when `get_config` panicked rather than returning a value. -/
def config_get_panicked : ConfigGetResult → Bool
  | .panicked _ => true
  | .value _ => false

/-! ## `src/crates/postgresqlx`: error type and the GLOBAL_POOL slot -/

/-- `PostgreSQLError` from `src/crates/postgresqlx/src/error.rs`. -/
inductive PostgreSQLError
  | ConnectionFailed (msg : String)
  | ConfigurationError (msg : String)
  | QueryError (msg : String)
  | PoolError (msg : String)
deriving DecidableEq, Repr

/-- Abstract stand-in for a created `PgPool` value. -/
structure Pool where
  id : Nat
deriving DecidableEq, Repr

/-- `PostgreSQLPool::init` from `pool.rs`, as a state transformer on the
`GLOBAL_POOL : OnceCell<Arc<PgPool>>` slot (`none` = empty). `createRes` is
the result of the external `config.create_pool()` call. On `set` failure
(slot already filled) the function returns
`ConfigurationError("Pool already initialized")` and the slot keeps its
first value. -/
def PostgreSQLPool.init (createRes : Except PostgreSQLError Pool) (slot : Option Pool) :
    Except PostgreSQLError Pool × Option Pool :=
  match createRes with
  | .error e => (.error e, slot)
  | .ok p =>
    match slot with
    | some p0 => (.error (.ConfigurationError "Pool already initialized"), some p0)
    | none => (.ok p, some p)

/-- `PostgreSQLPool::get` from `pool.rs`: returns the slot's pool, or
`ConfigurationError("Pool not initialized. Call init() first.")`. -/
def PostgreSQLPool.get (slot : Option Pool) : Except PostgreSQLError Pool :=
  match slot with
  | some p => .ok p
  | none => .error (.ConfigurationError "Pool not initialized. Call init() first.")

/-! ## `main.rs`: boolean environment flags -/

/-- Rust's `str::parse::<bool>`: it accepts exactly the strings `"true"`
and `"false"`; every other string is a parse error (`none`). -/
def rust_parse_bool (s : String) : Option Bool :=
  if s = "true" then some true
  else if s = "false" then some false
  else none

/-- Rust's `bool::to_string`. -/
def bool_to_string (b : Bool) : String :=
  if b then "true" else "false"

/-- `parse_bool_env_var` from `main.rs`:
`env::var(name).unwrap_or_else(|_| default.to_string()).parse::<bool>().unwrap_or(default)`.
`envVal = none` models an unset variable. -/
def parse_bool_env_var (envVal : Option String) (dflt : Bool) : Bool :=
  match rust_parse_bool (envVal.getD (bool_to_string dflt)) with
  | some b => b
  | none => dflt

/-! ## `main.rs`: service state and the shutdown coordinator -/

/-- `ServiceState` from the server crate, as used by `main.rs`. -/
inductive ServiceState
  | Starting
  | Running
  | Stopping
  | Stopped
deriving DecidableEq, Repr

/-- One observable action of `handle_shutdown`, in source order. Log lines
are kept separate from state-changing actions. -/
inductive ShutdownEvent
  | cancelToken
  | logInfo (msg : String)
  | logError (msg : String)
  | setState (s : ServiceState)
  | stopBackgroundServices
  | stopAhmServices
  | shutdownEventNotifier
  | stopAuditSystem
  | signalHttpShutdown
  | sleepShutdownTimeout
  | printlnOut (msg : String)
deriving DecidableEq, Repr

/-- `handle_shutdown` from `main.rs` as the trace of its actions.
`enable_scanner`/`enable_heal` are the values the function re-reads from
the environment via `parse_bool_env_var`; `auditStopOk` is the result of
the external `stop_audit_system().await`; `txPresent` is whether
`s3_shutdown_tx` is `Some` (it always is on the `run` path). -/
def handle_shutdown (enable_scanner enable_heal auditStopOk txPresent : Bool) :
    List ShutdownEvent :=
  [.cancelToken,
   .logInfo "Shutdown signal received in main thread",
   .setState .Stopping] ++
  (if enable_scanner || enable_heal then
    [.logInfo "Stopping background services (data scanner and auto heal)...",
     .stopBackgroundServices,
     .logInfo "Stopping AHM services...",
     .stopAhmServices]
   else
    [.logInfo "Background services were disabled, skipping AHM shutdown"]) ++
  [.logInfo "Shutting down event notifier system...",
   .shutdownEventNotifier,
   .logInfo "Stopping audit system...",
   .stopAuditSystem] ++
  (if auditStopOk then [.logInfo "Audit system stopped successfully."]
   else [.logError "Failed to stop audit system"]) ++
  [.logInfo "Server is stopping..."] ++
  (if txPresent then [.signalHttpShutdown] else []) ++
  [.sleepShutdownTimeout,
   .setState .Stopped,
   .logInfo "Server stopped current ",
   .printlnOut "Server stopped successfully."]

/-- State-changing and subsystem-facing actions (everything but logging). -/
def is_action : ShutdownEvent → Bool
  | .logInfo _ => false
  | .logError _ => false
  | .printlnOut _ => false
  | _ => true

/-- The effect of one shutdown event on the `ServiceStateManager` cell:
only `setState` writes it (`update` is an unconditional overwrite). -/
def apply_shutdown_event (s : ServiceState) : ShutdownEvent → ServiceState
  | .setState s' => s'
  | _ => s

/-- The value `current_state()` reads after a prefix of the trace has run,
starting from `init`. -/
def state_after (init : ServiceState) (es : List ShutdownEvent) : ServiceState :=
  es.foldl apply_shutdown_event init

/-! ## `main.rs`: conditional heal/scanner startup (stage 10 of `run`) -/

/-- Log severity of a tracing call. -/
inductive LogLevel
  | info
  | warn
  | error
deriving DecidableEq, Repr

/-- One observable action of the heal/scanner startup block in `run`. -/
inductive MaintEvent
  | log (lvl : LogLevel) (msg : String)
  | ecstoreHealStorageNew
  | initHealManager
  | scannerNew (withHealManager : Bool)
  | scannerStart
deriving DecidableEq, Repr

/-- The heal/scanner startup block of `run` (`main.rs`), as the trace of
its actions given the two environment flags. `scannerNew b` records the
`Scanner::new(Some(ScannerConfig::default()), h)` call with `b = h.isSome`
(whether a heal-manager handle was passed). -/
def maintenance_init (enable_heal enable_scanner : Bool) : List MaintEvent :=
  if enable_heal || enable_scanner then
    if enable_heal then
      [.ecstoreHealStorageNew, .initHealManager] ++
      (if enable_scanner then
        [.log .info "Starting scanner with heal manager...",
         .scannerNew true, .scannerStart]
       else
        [.log .info "Scanner disabled, but heal manager is initialized and available"])
    else
      [.log .info "Starting scanner without heal manager...",
       .scannerNew false, .scannerStart]
  else
    [.log .info "Both scanner and heal are disabled, skipping AHM service initialization"]

/-! ## `main.rs`: the bucket-notification reconciler -/

/-- Per-bucket outcome of `add_bucket_notification_configuration`. A lookup
error is absorbed by `unwrap_or_else` (a warning is logged and the bucket is
treated as having no configuration); a registration error is logged via
`error!` and the loop continues. -/
inductive BucketOutcome
  | lookupFailedLogged
  | noConfig
  | registered
  | registerFailedLogged
deriving DecidableEq, Repr

/-- The body of the per-bucket loop in `add_bucket_notification_configuration`
(`main.rs`). `lookup b` is the external
`metadata_sys::get_notification_config(b)` result (`some cfg` abstracted to
`some ()`); `register b` is the external
`notifier_global::add_event_specific_rules(b, region, rules)` result. -/
def process_bucket (lookup : String → Except String (Option Unit))
    (register : String → Except String Unit) (b : String) : BucketOutcome :=
  match lookup b with
  | .error _ => .lookupFailedLogged
  | .ok none => .noConfig
  | .ok (some _) =>
    match register b with
    | .error _ => .registerFailedLogged
    | .ok _ => .registered

/-- `add_bucket_notification_configuration` from `main.rs`: it visits every
bucket in order and returns unit in Rust; the embedding returns the outcome
recorded for each bucket. The Lean return type carries no error case,
mirroring the Rust `-> ()` signature: no per-bucket failure can propagate. -/
def add_bucket_notification_configuration (lookup : String → Except String (Option Unit))
    (register : String → Except String Unit) (buckets : List String) :
    List (String × BucketOutcome) :=
  buckets.map (fun b => (b, process_bucket lookup register b))

/-! ## `main.rs`: `async_main` / `run` stage sequencing -/

/-- Bootstrap stages of `async_main` and the front of `run`, in source
order. Everything in `run` after `ECStore::new` is collapsed into
`laterStages` (those stages are irrelevant to the sequencing claims). -/
inductive BootStage
  | dbPoolInit
  | observability
  | topologySetup
  | httpServer
  | localDisks
  | storageEngine
  | laterStages
deriving DecidableEq, Repr

/-- Results of the external collaborator calls made by `run` (`main.rs`),
in source order; `restOk` collapses every call after `ECStore::new`. -/
structure RunOracle where
  serverConfigPresent : Bool
  addrOk : Bool
  topoOk : Bool
  httpOk : Bool
  disksOk : Bool
  storeOk : Bool
  restOk : Bool
deriving DecidableEq, Repr

/-- `run` from `main.rs`: the stages it attempts, in order, and its Rust
result. Each failing call short-circuits with `?`/`map_err`, so no later
stage is attempted. -/
def run_model (o : RunOracle) : List BootStage × Except String Unit :=
  if o.serverConfigPresent = false then ([], .error "Server config not found")
  else if o.addrOk = false then ([], .error "parse_and_resolve_address")
  else if o.topoOk = false then ([.topologySetup], .error "EndpointServerPools::from_volumes")
  else if o.httpOk = false then ([.topologySetup, .httpServer], .error "start_http_server")
  else if o.disksOk = false then
    ([.topologySetup, .httpServer, .localDisks], .error "init_local_disks")
  else if o.storeOk = false then
    ([.topologySetup, .httpServer, .localDisks, .storageEngine], .error "ECStore::new")
  else if o.restOk = false then
    ([.topologySetup, .httpServer, .localDisks, .storageEngine, .laterStages],
     .error "later bootstrap stage")
  else
    ([.topologySetup, .httpServer, .localDisks, .storageEngine, .laterStages], .ok ())

/-- Results of the external calls made by `async_main` around `run`. -/
structure MainOracle where
  poolInitOk : Bool
  obsOk : Bool
  guardSetOk : Bool
  runO : RunOracle
deriving DecidableEq, Repr

/-- The part of `async_main` after the optional pool initialization:
`init_obs`, `set_global_guard`, then `run(config)`. -/
def after_pool_stages (o : MainOracle) : List BootStage × Except String Unit :=
  if o.obsOk = false then ([.observability], .error "Failed to initialize observability")
  else if o.guardSetOk = false then
    ([.observability], .error "Failed to set global observability guard")
  else
    ((run_model o.runO).1.cons .observability, (run_model o.runO).2)

/-- `async_main` from `main.rs`: if `config.database` is `Some`, the pool is
initialized first and a failure returns
`Err("Database connection failed: ...")` immediately; if it is `None`, the
pool stage is skipped entirely and execution proceeds unchanged. -/
def async_main_model (database : Option PostgreSQLConfigM) (o : MainOracle) :
    List BootStage × Except String Unit :=
  match database with
  | none => after_pool_stages o
  | some _ =>
    if o.poolInitOk = false then ([.dbPoolInit], .error "Database connection failed")
    else ((after_pool_stages o).1.cons .dbPoolInit, (after_pool_stages o).2)

/-! ## `admin/console.rs`: the health-check handler -/

/-- A JSON value, as produced by the `json!` macro in `health_check`. -/
inductive JsonVal
  | str (s : String)
  | num (n : Nat)
  | obj (fields : List (String × JsonVal))

/-- Field lookup in a JSON object (first match). -/
def json_lookup (k : String) : JsonVal → Option JsonVal
  | .obj fields => fields.lookup k
  | _ => none

/-- The keys of a JSON object, in order. -/
def json_keys : JsonVal → List String
  | .obj fields => fields.map Prod.fst
  | _ => []

/-- The `status` string computed by `health_check` (`admin/console.rs`):
it starts as `"ok"` and is overwritten with `"degraded"` by the storage
check and again by the IAM check, in that order. -/
def health_status (storageUp iamUp : Bool) : String :=
  let s1 := if storageUp then "ok" else "degraded"
  if iamUp then s1 else "degraded"

/-- The `details` object built by `health_check`. -/
def health_details (storageUp iamUp : Bool) : JsonVal :=
  .obj
    [("storage", .obj [("status", .str (if storageUp then "connected" else "disconnected"))]),
     ("iam", .obj [("status", .str (if iamUp then "connected" else "disconnected"))])]

/-- `health_check` from `admin/console.rs`. `storageUp` is whether
`new_object_layer_fn()` returned `Some`; `iamUp` is whether
`nebulafx_iam::get()` returned `Ok`; `ts`/`ver` are the values of
`chrono::Utc::now().to_rfc3339()` and `env!("CARGO_PKG_VERSION")`;
`nowEpochSecs` is `SystemTime::now().duration_since(UNIX_EPOCH).as_secs()`
at the moment of the request. -/
def health_check (storageUp iamUp : Bool) (ts ver : String) (nowEpochSecs : Nat) : JsonVal :=
  .obj
    [("status", .str (health_status storageUp iamUp)),
     ("service", .str "nebulafx-console"),
     ("timestamp", .str ts),
     ("version", .str ver),
     ("details", health_details storageUp iamUp),
     ("uptime", .num nowEpochSecs)]

/-! ## Concrete reconciliation scenario (three buckets, middle lookup fails) -/

/-- Lookup oracle for the three-bucket scenario: the notification-config
lookup fails for `"bucket-b"` and succeeds with a configuration for every
other bucket. -/
def lookup_scenario (b : String) : Except String (Option Unit) :=
  if b = "bucket-b" then .error "lookup failed" else .ok (some ())

/-- Registration oracle for the three-bucket scenario: always succeeds. -/
def register_scenario (_ : String) : Except String Unit := .ok ()

/-! ## Theorems -/

/-- C9: the production configuration file path `"config.toml"` is selected
iff the `ENVIRONMENT` value is exactly one of the six strings in `PRO_ENV`;
any other value (e.g. `"Production"`, `"prod"`) or an unset variable selects
`"config.dev.toml"`. -/
theorem config_path_production_iff :
    (∀ v : String, config_file_path (some v) = "config.toml" ↔ v ∈ PRO_ENV) ∧
    config_file_path none = "config.dev.toml" ∧
    config_file_path (some "Production") = "config.dev.toml" ∧
    config_file_path (some "prod") = "config.dev.toml" := by
  refine ⟨fun v => ?_, rfl, by decide, by decide⟩
  unfold config_file_path production_selected
  by_cases hv : v ∈ PRO_ENV
  · have hc : PRO_ENV.contains v = true := by simpa using hv
    simp [hc]
  · have hc : PRO_ENV.contains v = false := by simpa using hv
    simp [hc]

/-- C9 witness: `ENVIRONMENT=pro` selects `"config.toml"`. -/
theorem config_path_production_iff_witness :
    config_file_path (some "pro") = "config.toml" :=
  (config_path_production_iff.1 "pro").mpr (by decide)

/-- C7 (failing input): `parse_bool_env_var` returns the default `true`
when the variable is unset, and also returns `true` — not `false` — when
the variable is set to `"0"` with default `true`, because Rust's
`str::parse::<bool>` accepts only `"true"`/`"false"` and the `unwrap_or`
falls back to the default; likewise `"1"` parses as the default, not as
`true` in its own right (with default `false`, both `"1"` and `"0"` yield
`false`). This contradicts the function's own doc comment, which promises
`false` for `0/no/off/disabled` and `true` for `1/yes/on/enabled`. -/
theorem parse_bool_env_var_zero_is_default :
    parse_bool_env_var none true = true ∧
    parse_bool_env_var (some "0") true = true ∧
    parse_bool_env_var (some "1") true = true ∧
    parse_bool_env_var (some "1") false = false ∧
    parse_bool_env_var (some "false") true = false ∧
    parse_bool_env_var (some "true") false = true := by
  decide

/-- C5: for both global singleton slots (the parsed-configuration
`OnceLock` and the connection-pool `OnceCell`), a second `set` on an
already-set slot returns the slot's already-initialized error
(`TomlConfigError::AlreadyInitialized` for the config slot,
`ConfigurationError("Pool already initialized")` for the pool slot), the
slot keeps the first-set value, and a subsequent `get` observes the first
value, never the second. -/
theorem singleton_second_set_rejected (c1 c2 : Config) (p1 p2 : Pool) :
    (init_config (.ok c2) (init_config (.ok c1) none).2).1 =
      .error TomlConfigError.AlreadyInitialized ∧
    (init_config (.ok c2) (init_config (.ok c1) none).2).2 = some c1 ∧
    get_config (init_config (.ok c2) (init_config (.ok c1) none).2).2 =
      ConfigGetResult.value c1 ∧
    (PostgreSQLPool.init (.ok p2) (PostgreSQLPool.init (.ok p1) none).2).1 =
      .error (.ConfigurationError "Pool already initialized") ∧
    (PostgreSQLPool.init (.ok p2) (PostgreSQLPool.init (.ok p1) none).2).2 = some p1 ∧
    PostgreSQLPool.get (PostgreSQLPool.init (.ok p2) (PostgreSQLPool.init (.ok p1) none).2).2 =
      .ok p1 := by
  exact ⟨rfl, rfl, rfl, rfl, rfl, rfl⟩

/-- C6 counterexample: `get_config` on the empty configuration slot does
not return a `NotInitialized` error value to its caller — its Rust
signature is `-> &'static Config` — it panics via `.expect`. -/
theorem get_config_before_set_panics :
    get_config none =
      ConfigGetResult.panicked "Config not initialized. Call init_config() first." ∧
    config_get_panicked (get_config none) = true := by
  exact ⟨rfl, rfl⟩

/-- C6 as amended: before any successful `set`, the pool slot's `get`
returns the distinguishable error value
`ConfigurationError("Pool not initialized. Call init() first.")`, while the
config slot's `get_config` panics with the message
`"Config not initialized. Call init_config() first."` instead of returning
an error value (neither slot yields a silent default). -/
theorem singleton_get_before_set :
    PostgreSQLPool.get none =
      .error (.ConfigurationError "Pool not initialized. Call init() first.") ∧
    get_config none =
      ConfigGetResult.panicked "Config not initialized. Call init_config() first." := by
  exact ⟨rfl, rfl⟩

/-- C3: with `enable_heal = false` and `enable_scanner = true`, the
startup block starts the scanner with no heal-manager handle
(`Scanner::new` receives `None`), performs no heal-manager initialization
call, and every log line it emits is informational. -/
theorem scanner_only_no_heal_manager :
    maintenance_init false true =
      [MaintEvent.log .info "Starting scanner without heal manager...",
       .scannerNew false, .scannerStart] ∧
    MaintEvent.initHealManager ∉ maintenance_init false true ∧
    (∀ lvl msg, MaintEvent.log lvl msg ∈ maintenance_init false true →
      lvl = LogLevel.info) := by
  refine ⟨rfl, by decide, fun lvl msg h => ?_⟩
  simp [maintenance_init] at h
  exact h.1

/-- C3 witness: the informational-logging clause holds at the concrete log
line the scanner-only branch emits. -/
theorem scanner_only_no_heal_manager_witness :
    LogLevel.info = LogLevel.info :=
  scanner_only_no_heal_manager.2.2 .info "Starting scanner without heal manager..."
    (by decide)

/-- C8: the health-check document always carries exactly the fields
`status`, `service`, `timestamp`, `version`, `details`, `uptime`, and its
`status` is `"ok"` iff both the storage layer and the IAM subsystem are
reachable, `"degraded"` iff either is unreachable. -/
theorem health_check_fields_and_status (storageUp iamUp : Bool) (ts ver : String)
    (now : Nat) :
    json_keys (health_check storageUp iamUp ts ver now) =
      ["status", "service", "timestamp", "version", "details", "uptime"] ∧
    (json_lookup "status" (health_check storageUp iamUp ts ver now) =
        some (.str "ok") ↔ storageUp = true ∧ iamUp = true) ∧
    (json_lookup "status" (health_check storageUp iamUp ts ver now) =
        some (.str "degraded") ↔ (storageUp = false ∨ iamUp = false)) := by
  cases storageUp <;> cases iamUp <;>
    refine ⟨rfl, ?_, ?_⟩ <;>
      simp [health_check, health_status, json_lookup, List.lookup]

/-- C8 witness: with storage unreachable and IAM reachable the reported
status is `"degraded"`. -/
theorem health_check_fields_and_status_witness :
    json_lookup "status" (health_check false true "ts" "ver" 0) =
      some (.str "degraded") :=
  (health_check_fields_and_status false true "ts" "ver" 0).2.2.mpr (Or.inl rfl)

/-- C10: the `uptime` field equals the wall-clock seconds since the Unix
epoch at the moment of the request (`SystemTime::now()` against
`UNIX_EPOCH`), and for any positive process age it differs from the elapsed
time since process start: it is not a process uptime. -/
theorem health_uptime_is_epoch_now (storageUp iamUp : Bool) (ts ver : String)
    (now : Nat) :
    json_lookup "uptime" (health_check storageUp iamUp ts ver now) =
      some (.num now) ∧
    (∀ start : Nat, 0 < start → start ≤ now →
      json_lookup "uptime" (health_check storageUp iamUp ts ver now) ≠
        some (.num (now - start))) := by
  have h0 : json_lookup "uptime" (health_check storageUp iamUp ts ver now) =
      some (.num now) := rfl
  refine ⟨h0, fun start hpos hle hEq => ?_⟩
  rw [h0] at hEq
  have hnum : now = now - start := by
    simpa using hEq
  omega

/-- C10 witness: at epoch second 100 with a process started 30 seconds
earlier, the `uptime` field is not 70. -/
theorem health_uptime_is_epoch_now_witness :
    json_lookup "uptime" (health_check true true "ts" "ver" 100) ≠
      some (.num (100 - 30)) :=
  (health_uptime_is_epoch_now true true "ts" "ver" 100).2 30 (by decide) (by decide)

/-- C4: the reconciler visits every bucket exactly once, registers rules
for every bucket whose lookup and registration succeed regardless of other
buckets' failures, and (by its unit return type) never propagates an error
to the bootstrap. -/
theorem reconciler_isolates_failures (lookup : String → Except String (Option Unit))
    (register : String → Except String Unit) (buckets : List String) :
    (add_bucket_notification_configuration lookup register buckets).length =
      buckets.length ∧
    (∀ b ∈ buckets, (b, process_bucket lookup register b) ∈
      add_bucket_notification_configuration lookup register buckets) ∧
    (∀ b ∈ buckets, lookup b = .ok (some ()) → register b = .ok () →
      (b, BucketOutcome.registered) ∈
        add_bucket_notification_configuration lookup register buckets) := by
  refine ⟨by simp [add_bucket_notification_configuration],
    fun b hb => List.mem_map_of_mem _ hb, fun b hb h1 h2 => ?_⟩
  have hpb : process_bucket lookup register b = .registered := by
    simp [process_bucket, h1, h2]
  have hm := List.mem_map_of_mem (fun b => (b, process_bucket lookup register b)) hb
  simpa [add_bucket_notification_configuration, hpb] using hm

/-- C4 witness: in the three-bucket scenario where `"bucket-b"`'s lookup
fails, rules are still registered for `"bucket-a"` and `"bucket-c"`. -/
theorem reconciler_isolates_failures_witness :
    ("bucket-a", BucketOutcome.registered) ∈
      add_bucket_notification_configuration lookup_scenario register_scenario
        ["bucket-a", "bucket-b", "bucket-c"] ∧
    ("bucket-c", BucketOutcome.registered) ∈
      add_bucket_notification_configuration lookup_scenario register_scenario
        ["bucket-a", "bucket-b", "bucket-c"] :=
  ⟨(reconciler_isolates_failures lookup_scenario register_scenario
      ["bucket-a", "bucket-b", "bucket-c"]).2.2 "bucket-a" (by decide) rfl rfl,
   (reconciler_isolates_failures lookup_scenario register_scenario
      ["bucket-a", "bucket-b", "bucket-c"]).2.2 "bucket-c" (by decide) rfl rfl⟩

/-- The stages attempted by `run` never include the pool stage. -/
theorem run_trace_no_dbPoolInit (ro : RunOracle) :
    BootStage.dbPoolInit ∉ (run_model ro).1 := by
  unfold run_model
  split_ifs <;> decide

/-- The stages attempted after the optional pool stage never include it. -/
theorem after_pool_no_dbPoolInit (o : MainOracle) :
    BootStage.dbPoolInit ∉ (after_pool_stages o).1 := by
  unfold after_pool_stages
  split_ifs
  · decide
  · decide
  · intro hmem
    rcases List.mem_cons.mp hmem with h | h
    · exact absurd h (by decide)
    · exact run_trace_no_dbPoolInit o.runO h

/-- C2: with no `database` section, the pool stage is never attempted and
`async_main` behaves exactly as the remaining bootstrap; with a `database`
section present a `PostgreSQLPool::init` failure makes `async_main` return
an error before the observability, topology, or storage-engine stages run. -/
theorem db_section_gating (o : MainOracle) (cfg : PostgreSQLConfigM) :
    (async_main_model none o = after_pool_stages o ∧
      BootStage.dbPoolInit ∉ (async_main_model none o).1) ∧
    (o.poolInitOk = false →
      async_main_model (some cfg) o =
        ([BootStage.dbPoolInit], .error "Database connection failed") ∧
      BootStage.observability ∉ (async_main_model (some cfg) o).1 ∧
      BootStage.topologySetup ∉ (async_main_model (some cfg) o).1 ∧
      BootStage.storageEngine ∉ (async_main_model (some cfg) o).1) := by
  refine ⟨⟨rfl, after_pool_no_dbPoolInit o⟩, fun h => ?_⟩
  have he : async_main_model (some cfg) o =
      ([BootStage.dbPoolInit], .error "Database connection failed") := by
    simp [async_main_model, h]
  refine ⟨he, ?_, ?_, ?_⟩ <;> rw [he] <;> decide

/-- C2 witness: with a database section configured and an unreachable host
(pool creation fails), the only attempted stage is the pool stage and the
result is the database-connection error. -/
theorem db_section_gating_witness :
    async_main_model (some ⟨0⟩)
        ⟨false, true, true, ⟨true, true, true, true, true, true, true⟩⟩ =
      ([BootStage.dbPoolInit], .error "Database connection failed") :=
  ((db_section_gating ⟨false, true, true, ⟨true, true, true, true, true, true, true⟩⟩
      ⟨0⟩).2 rfl).1

/-- C1: for every flag combination (and the audit-stop result either way),
`handle_shutdown`'s non-logging actions are exactly: cancel the shared
token, set the state to Stopping, conditionally stop the maintenance
services, shut down the event notifier, stop the audit system, signal the
HTTP layer, sleep the fixed grace period, and only then set the state to
Stopped; the state observed by `current_state()` is Stopping immediately
after the first three events, and at no point of the trace is it Stopped
before the sleep event has occurred. -/
theorem shutdown_sequence (es eh ak : Bool) :
    (handle_shutdown es eh ak true).filter is_action =
      [ShutdownEvent.cancelToken, .setState .Stopping] ++
      (if es || eh then
        [ShutdownEvent.stopBackgroundServices, .stopAhmServices] else []) ++
      [.shutdownEventNotifier, .stopAuditSystem, .signalHttpShutdown,
       .sleepShutdownTimeout, .setState .Stopped] ∧
    state_after .Running ((handle_shutdown es eh ak true).take 3) = .Stopping ∧
    (∀ n, n ≤ (handle_shutdown es eh ak true).length →
      state_after .Running ((handle_shutdown es eh ak true).take n) = .Stopped →
      ShutdownEvent.sleepShutdownTimeout ∈ (handle_shutdown es eh ak true).take n) ∧
    state_after .Running (handle_shutdown es eh ak true) = .Stopped := by
  cases es <;> cases eh <;> cases ak <;> decide

/-- C1 witness: at the end of the full trace (both flags on, audit stop
succeeding) the state is Stopped and the grace-period sleep has occurred. -/
theorem shutdown_sequence_witness :
    ShutdownEvent.sleepShutdownTimeout ∈ (handle_shutdown true true true true).take 18 :=
  (shutdown_sequence true true true).2.2.1 18 (by decide) (by decide)

end NebulaFX
